import Mathlib

/-!
Verification of the SSDP core of the rust-upnp repository.

The source is shallowly embedded over `Str := List Char` (a Rust `String` /
`&str` after UTF-8 decoding).  Machine integers are `Nat` with explicit
`% 2 ^ w` at the one place overflow matters (the `u32` boot counter), and
with range checks inside the embedded `FromStr` parsers.  Rust `HashMap`s of
headers are association lists with replace-on-insert semantics; the claims
proved below never depend on iteration order.  Fallible Rust code returns
`Except`; a reachable `unwrap`/`panic` is modelled by the `ConvErr.panic`
value threaded through `Conv`.
-/

set_option maxRecDepth 4000

namespace Upnp

/-- Rust strings, after UTF-8 decoding, as lists of characters. -/
abbrev Str := List Char

/-- String literal helper: the character list of a Lean string literal. -/
def lit (s : String) : Str := s.data

/-- Rust `u64::to_string` / `Display for integers`: decimal digits. -/
def natToStr (n : Nat) : Str := (Nat.repr n).data

/-- Character class `[0-9]` (regex `\d`). -/
def isDigitChar (c : Char) : Bool := c.isDigit

/-- Character class `[\d\.]` used by the SERVER / status-line regexes. -/
def isDigitOrDot (c : Char) : Bool := c.isDigit || c == '.'

/-- Value of a non-empty decimal digit string. -/
def digitsToNat (s : Str) : Nat := s.foldl (fun a c => a * 10 + (c.toNat - 48)) 0

/-- Strip a literal pattern from the front of a string
(Rust `str::strip_prefix`), returning the remainder on success. -/
def stripPre : Str → Str → Option Str
  | [], s => some s
  | _ :: _, [] => none
  | p :: ps, c :: cs => if c = p then stripPre ps cs else none

/-- Split a string at the first occurrence of a (non-empty) separator,
returning the parts before and after it. -/
def splitFirst (sep : Str) : Str → Option (Str × Str)
  | [] => none
  | c :: rest =>
    if sep.isPrefixOf (c :: rest) then some ([], (c :: rest).drop sep.length)
    else
      match splitFirst sep rest with
      | none => none
      | some (p, q) => some (c :: p, q)

/-- Worker for splitCRLF: scan left to right, cutting at each
(non-overlapping) CRLF; `acc` holds the current piece reversed. -/
def splitCRLFAux : Str → Str → List Str
  | [], acc => [acc.reverse]
  | '\r' :: '\n' :: rest, acc => acc.reverse :: splitCRLFAux rest []
  | c :: rest, acc => splitCRLFAux rest (c :: acc)

/-- Rust `str::split("\r\n")` (protocol::LINE_SEP): the list of
CRLF-separated pieces. -/
def splitCRLF (s : Str) : List Str := splitCRLFAux s []

/-- Rust `str::trim` (ASCII whitespace suffices for header values here). -/
def trimStr (s : Str) : Str :=
  ((s.dropWhile Char.isWhitespace).reverse.dropWhile Char.isWhitespace).reverse

/-- Uppercase a string per-character (`str::to_uppercase`; the header-name
character class is ASCII-only, where the two functions agree). -/
def toUpperStr (s : Str) : Str := s.map Char.toUpper

/-- Rust `u64::from_str` / `u16::from_str`: an optional leading plus sign,
then one or more decimal digits, failing on overflow of the given width. -/
def rustParseNat (width : Nat) (s : Str) : Option Nat :=
  let digits := match s with
    | '+' :: rest => rest
    | _ => s
  if digits.isEmpty then none
  else if digits.all isDigitChar then
    let n := digitsToNat digits
    if n < 2 ^ width then some n else none
  else none

-- ------------------------------------------------------------------------------------------------
-- Header maps (Rust HashMap<String, String>, order-insensitive)
-- ------------------------------------------------------------------------------------------------

/-- A header map: an association list with replace-on-insert semantics. -/
abbrev Headers := List (Str × Str)

/-- HashMap::contains_key. -/
def containsKey (k : Str) (h : Headers) : Bool := h.any (fun p => p.1 == k)

/-- HashMap::get. -/
def findH (k : Str) (h : Headers) : Option Str :=
  (h.find? (fun p => p.1 == k)).map (fun p => p.2)

/-- HashMap::insert (replaces the value when the key is present). -/
def insertH (k v : Str) (h : Headers) : Headers :=
  if containsKey k h then h.map (fun p => if p.1 == k then (k, v) else p)
  else h ++ [(k, v)]

-- ------------------------------------------------------------------------------------------------
-- Error taxonomy (both coexisting error enumerations of the source)
-- ------------------------------------------------------------------------------------------------

/-- error::ValueSource. -/
inductive ValueSource
  | Socket
  | Header
  | Field
deriving DecidableEq, Repr

/-- The message-level error values of the source: the old
`MessageErrorKind` variants (which carry no names) together with the new
`MessageFormatError` variants (which do). -/
inductive MsgErr
  | InvalidResponseStatus
  | InvalidEncoding
  | InvalidVersion
  | VersionMismatchKind
  | InvalidHeaderFormat
  | MissingRequiredField
  | FieldTypeMismatch
  | InvalidFieldValue
  | MissingRequiredValue (source : ValueSource) (name : Str)
  | ValueTypeMismatch (source : ValueSource) (name expected found : Str)
  | InvalidValue (source : ValueSource) (name value : Str)
  | InvalidValueForType (for_type value : Str)
deriving DecidableEq, Repr

/-- SpecVersion (declared before Err, which carries it). -/
inductive SpecVersion
  | V10
  | V11
  | V20
deriving DecidableEq, Repr

/-- Display for SpecVersion. -/
def specVersionToStr : SpecVersion → Str
  | .V10 => lit "1.0"
  | .V11 => lit "1.1"
  | .V20 => lit "2.0"

/-- Rank used by the derived Ord (V10 < V11 < V20). -/
def SpecVersion.rank : SpecVersion → Nat
  | .V10 => 0
  | .V11 => 1
  | .V20 => 2

/-- Rust `>=` on SpecVersion via the derived ordering. -/
def SpecVersion.atLeast (a b : SpecVersion) : Bool := b.rank ≤ a.rank

/-- Top-level error type (error::Error; the io payload of
NetworkTransport is dropped). -/
inductive Err
  | NetworkTransport
  | MessageFormat (e : MsgErr)
  | UnsupportedVersion (version : SpecVersion)
  | UnsupportedOperation (operation : Str)
deriving DecidableEq, Repr

/-- A reachable Rust panic (failed `unwrap`), or an ordinary error. -/
inductive ConvErr
  | panic
  | err (e : Err)
deriving DecidableEq, Repr

/-- Result type threading panics through the embedded fallible code. -/
abbrev Conv (α : Type) := Except ConvErr α

instance {ε α : Type} [DecidableEq ε] [DecidableEq α] : DecidableEq (Except ε α)
  | .ok a, .ok b =>
    if h : a = b then isTrue (by rw [h]) else isFalse (by intro hh; cases hh; exact h rfl)
  | .ok _, .error _ => isFalse (by intro h; cases h)
  | .error _, .ok _ => isFalse (by intro h; cases h)
  | .error e, .error f =>
    if h : e = f then isTrue (by rw [h]) else isFalse (by intro hh; cases hh; exact h rfl)

/-- Rust `Option::unwrap`: panics on `None`. -/
def unwrapOpt {α : Type} : Option α → Conv α
  | some a => .ok a
  | none => .error .panic

/-- True iff an embedded computation returned Ok. -/
def convIsOk {α : Type} : Conv α → Bool
  | .ok _ => true
  | .error _ => false

-- ------------------------------------------------------------------------------------------------
-- SearchTarget codec (discovery/search.rs)
-- ------------------------------------------------------------------------------------------------

/-- discovery::search::SearchTarget. -/
inductive SearchTarget
  | All
  | RootDevice
  | Device (device : Str)
  | DeviceType (device : Str)
  | ServiceType (service : Str)
  | DomainDeviceType (domain device : Str)
  | DomainServiceType (domain service : Str)
deriving DecidableEq, Repr

/-- Display for SearchTarget (the render rules of the source, verbatim,
including the double colon of ssdp::all). -/
def stRender : SearchTarget → Str
  | .All => lit "ssdp::all"
  | .RootDevice => lit "upnp:rootdevice"
  | .Device device => lit "uuid:" ++ device
  | .DeviceType device => lit "urn:schemas-upnp-org:device:" ++ device
  | .ServiceType service => lit "urn:schemas-upnp-org:service:" ++ service
  | .DomainDeviceType domain device => lit "urn:" ++ domain ++ lit ":device:" ++ device
  | .DomainServiceType domain service => lit "urn:" ++ domain ++ lit ":service:" ++ service

/-- The regex `^urn:([^:]+):(device|service):(.+)$` (DOMAIN_URN).  The
pattern is deterministic: `[^:]+` cannot cross a colon, the alternation
branches exclude each other before a required colon, and `.` does not match
a newline while `$` anchors at the very end.  Returns the three capture
groups. -/
def domainUrnCaptures (s : Str) : Option (Str × Str × Str) :=
  match stripPre (lit "urn:") s with
  | none => none
  | some r1 =>
    let g1 := r1.takeWhile (fun c => !(c == ':'))
    if g1.isEmpty then none
    else
      match stripPre (g1 ++ [':']) r1 with
      | none => none
      | some r2 =>
        match stripPre (lit "device:") r2 with
        | some g3 => if g3.isEmpty || g3.any (fun c => c == '\n') then none
                     else some (g1, lit "device", g3)
        | none =>
          match stripPre (lit "service:") r2 with
          | some g3 => if g3.isEmpty || g3.any (fun c => c == '\n') then none
                       else some (g1, lit "service", g3)
          | none => none

/-- FromStr for SearchTarget (discovery/search.rs).  Note the source strips
the leading urn-colon before applying DOMAIN_URN, which itself demands
another leading urn-colon. -/
def stFromStr (s : Str) : Except MsgErr SearchTarget :=
  if s == lit "ssdp::all" then .ok .All
  else if s == lit "upnp:rootdevice" then .ok .RootDevice
  else
    match stripPre (lit "uuid:") s with
    | some device => .ok (.Device device)
    | none =>
      match stripPre (lit "urn:schemas-upnp-org:device:") s with
      | some device_type => .ok (.DeviceType device_type)
      | none =>
        match stripPre (lit "urn:schemas-upnp-org:service:") s with
        | some service_type => .ok (.ServiceType service_type)
        | none =>
          match stripPre (lit "urn:") s with
          | some domain =>
            match domainUrnCaptures domain with
            | some (g1, kind, g3) =>
              if kind == lit "device" then .ok (.DomainDeviceType g1 g3)
              else .ok (.DomainServiceType g1 g3)
            | none => .error (.InvalidValueForType (lit "URN") s)
          | none => .error (.InvalidValueForType (lit "SearchTarget") s)

-- ------------------------------------------------------------------------------------------------
-- Header validators (common/headers.rs)
-- ------------------------------------------------------------------------------------------------

/-- common::headers::check_required.  Faithfully uses take_while over the
required list, exactly as the source does. -/
def check_required (headers : Headers) (required : List Str) : Except MsgErr Unit :=
  let missing_headers := required.takeWhile (fun h => !(containsKey h headers))
  if missing_headers.isEmpty then .ok ()
  else .error .MissingRequiredField

/-- common::headers::check_parsed_value instantiated at u64. -/
def check_parsed_value_u64 (header_value : Str) : Except MsgErr Nat :=
  match rustParseNat 64 header_value with
  | some v => .ok v
  | none => .error .InvalidFieldValue

/-- common::headers::check_empty. -/
def check_empty (header_value : Str) : Except MsgErr Unit :=
  if (trimStr header_value).isEmpty then .ok ()
  else .error .InvalidFieldValue

/-- common::headers::check_not_empty. -/
def check_not_empty (header_entry : Option Str) (default : Str) : Str :=
  let header_value := header_entry.getD default
  if !(trimStr header_value).isEmpty then header_value else default

/-- Match the unanchored regex `max-age[ ]*=[ ]*(\d+)` at the current
position: the literal, optional spaces, an equals sign, optional spaces,
then a maximal non-empty digit run (the capture). -/
def maxAgeAt (s : Str) : Option Str :=
  match stripPre (lit "max-age") s with
  | none => none
  | some r1 =>
    let r2 := r1.dropWhile (fun c => c == ' ')
    match stripPre (lit "=") r2 with
    | none => none
    | some r3 =>
      let r4 := r3.dropWhile (fun c => c == ' ')
      let digits := r4.takeWhile isDigitChar
      if digits.isEmpty then none else some digits

/-- Leftmost match of the max-age regex over the whole value
(`Regex::captures` search semantics), returning capture group 1. -/
def findMaxAge : Str → Option Str
  | [] => none
  | c :: rest =>
    match maxAgeAt (c :: rest) with
    | some digits => some digits
    | none => findMaxAge rest

/-- common::headers::check_regex applied to the CACHE-CONTROL max-age
regex (capture group 1 exists whenever the regex matches). -/
def check_regex_maxage (header_value : Str) : Except MsgErr Str :=
  match findMaxAge header_value with
  | some captured => .ok captured
  | none => .error .InvalidFieldValue

-- ------------------------------------------------------------------------------------------------
-- Product versions and the SERVER header regex (discovery/mod.rs, search.rs)
-- ------------------------------------------------------------------------------------------------

/-- discovery::ProductVersion. -/
structure ProductVersion where
  name : Str
  version : Str
deriving DecidableEq, Repr

/-- discovery::ProductVersions. -/
structure ProductVersions where
  product : ProductVersion
  upnp : ProductVersion
  platform : ProductVersion
deriving DecidableEq, Repr

/-- Display for ProductVersion: name/version. -/
def productVersionToStr (p : ProductVersion) : Str := p.name ++ '/' :: p.version

/-- One `([^/]+)/([\d\.]+)` token of the SERVER regex: the name runs to the
first slash (non-empty), the version is the maximal digit-or-dot run after
it (non-empty).  Returns the token and the remaining input.  Deterministic:
neither class can cross its delimiter. -/
def uaToken (s : Str) : Option (ProductVersion × Str) :=
  let name := s.takeWhile (fun c => !(c == '/'))
  if name.isEmpty then none
  else
    match stripPre (name ++ ['/']) s with
    | none => none
    | some r1 =>
      let ver := r1.takeWhile isDigitOrDot
      if ver.isEmpty then none else some (⟨name, ver⟩, r1.drop ver.length)

/-- The `,?[ ]+` separator between SERVER tokens: an optional comma then at
least one space (greedy, deterministic). -/
def uaSep (s : Str) : Option Str :=
  let r1 := match s with
    | ',' :: rest => rest
    | _ => s
  match r1 with
  | ' ' :: rest => some (rest.dropWhile (fun c => c == ' '))
  | _ => none

/-- The anchored SERVER regex
`^([^/]+)/([\d\.]+),?[ ]+([^/]+)/([\d\.]+),?[ ]+([^/]+)/([\d\.]+)$`
(UA_ALL), assembled into the source's ProductVersions: captures 1-2 go to
`platform`, 3-4 to `upnp`, 5-6 to `product`. -/
def uaAllCaptures (s : Str) : Option ProductVersions :=
  match uaToken s with
  | none => none
  | some (t1, r1) =>
    match uaSep r1 with
    | none => none
    | some r2 =>
      match uaToken r2 with
      | none => none
      | some (t2, r3) =>
        match uaSep r3 with
        | none => none
        | some r4 =>
          match uaToken r4 with
          | none => none
          | some (t3, r5) =>
            if r5.isEmpty then some ⟨t3, t2, t1⟩ else none

-- ------------------------------------------------------------------------------------------------
-- HTTPU response parsing (common/httpu/response.rs)
-- ------------------------------------------------------------------------------------------------

/-- common::httpu::ResponseStatus. -/
structure ResponseStatus where
  protocol : Str
  version : Str
  code : Nat
  message : Str
deriving DecidableEq, Repr

/-- common::httpu::Response: a parsed raw datagram. -/
structure RawResponse where
  status : ResponseStatus
  headers : Headers
  body : Option Str
deriving DecidableEq, Repr

/-- split_at_body: split the datagram at the first blank line
(`\r\n\r\n`); with no blank line everything is headers and the body is
empty. -/
def splitAtBody (all : Str) : Str × Str :=
  match splitFirst (lit "\r\n\r\n") all with
  | none => (all, [])
  | some (pre, post) => (pre, post)

/-- Captures of the status-line regex `^HTTP/([\d\.]+) (\d+) (.*)$`
(deterministic: each class stops at the following literal, `.` excludes the
newline, `$` anchors at the end). -/
def statusLineCaptures (line : Str) : Option (Str × Str × Str) :=
  match stripPre (lit "HTTP/") line with
  | none => none
  | some r1 =>
    let ver := r1.takeWhile isDigitOrDot
    if ver.isEmpty then none
    else
      match stripPre (ver ++ [' ']) r1 with
      | none => none
      | some r2 =>
        let code := r2.takeWhile isDigitChar
        if code.isEmpty then none
        else
          match stripPre (code ++ [' ']) r2 with
          | none => none
          | some msg =>
            if msg.any (fun c => c == '\n') then none else some (ver, code, msg)

/-- decode_status_line.  The source unwraps `u16::from_str` on the digit
capture, so a numeric overflow is a panic; a non-200 code is
InvalidResponseStatus. -/
def decodeStatusLine (line : Str) : Conv ResponseStatus :=
  match statusLineCaptures line with
  | none => .error (.err (.MessageFormat .InvalidResponseStatus))
  | some (ver, code, msg) =>
    let status_code := digitsToNat code
    if status_code < 2 ^ 16 then
      if status_code == 200 then
        .ok ⟨lit "HTTP", ver, status_code, msg⟩
      else .error (.err (.MessageFormat .InvalidResponseStatus))
    else .error .panic

/-- Captures of the header regex `^([a-zA-Z0-9\-_]*)[ ]*:[ ]*(.*)$`
(group 1 may be empty; spaces around the colon are consumed greedily). -/
def headerLineCaptures (line : Str) : Option (Str × Str) :=
  let name := line.takeWhile (fun c => c.isAlphanum || c == '-' || c == '_')
  let r1 := (line.drop name.length).dropWhile (fun c => c == ' ')
  match r1 with
  | ':' :: r2 =>
    let value := r2.dropWhile (fun c => c == ' ')
    if value.any (fun c => c == '\n') then none else some (name, value)
  | _ => none

/-- decode_header: the name is uppercased on ingest. -/
def decodeHeader (line : Str) : Except MsgErr (Str × Str) :=
  match headerLineCaptures line with
  | none => .error .InvalidHeaderFormat
  | some (name, value) => .ok (toUpperStr name, value)

/-- decode_headers: later duplicates overwrite earlier ones. -/
def decodeHeadersFrom (acc : Headers) : List Str → Except MsgErr Headers
  | [] => .ok acc
  | line :: rest =>
    match decodeHeader line with
    | .error e => .error e
    | .ok (k, v) => decodeHeadersFrom (insertH k v acc) rest

/-- TryFrom<&[u8]> for common::httpu::Response.  The datagram is modelled
after UTF-8 decoding (the InvalidEncoding branch is outside the model);
the body is kept verbatim, an empty body becomes None. -/
def httpuTryFrom (bytes : Str) : Conv RawResponse :=
  let (raw_headers, body) := splitAtBody bytes
  match splitCRLF raw_headers with
  | [] => .error .panic
  | first :: rest =>
    match decodeStatusLine first with
    | .error e => .error e
    | .ok status =>
      match decodeHeadersFrom [] rest with
      | .error e => .error (.err (.MessageFormat e))
      | .ok headers =>
        .ok ⟨status, headers, if body.isEmpty then none else some body⟩

-- ------------------------------------------------------------------------------------------------
-- The multicast receive loop (common/httpu/mod.rs, multicast_using)
-- ------------------------------------------------------------------------------------------------

/-- One outcome of `socket.recv_from` in the receive loop: a datagram (as
seen in the 1500-byte buffer, i.e. already truncated), the WouldBlock
timeout, or any other I/O error. -/
inductive SocketEvent
  | datagram (d : Str)
  | wouldBlock
  | ioError
deriving DecidableEq, Repr

/-- The receive loop of multicast_using over a scripted socket.  `none`
models the call never returning (the socket kept blocking with no further
event). -/
def multicastUsingLoop : List SocketEvent → List RawResponse → Option (Conv (List RawResponse))
  | [], _ => none
  | .datagram d :: rest, responses =>
    match httpuTryFrom d with
    | .ok r => multicastUsingLoop rest (responses ++ [r])
    | .error e => some (.error e)
  | .wouldBlock :: _, responses => some (.ok responses)
  | .ioError :: _, _ => some (.error (.err .NetworkTransport))

/-- multicast_using: send the request, then loop on recv_from.  `sendOk`
is the outcome of the initial `send_to`. -/
def multicast_using (sendOk : Bool) (events : List SocketEvent) :
    Option (Conv (List RawResponse)) :=
  if sendOk then multicastUsingLoop events []
  else some (.error (.err .NetworkTransport))

-- ------------------------------------------------------------------------------------------------
-- HTTPU requests (common/httpu/request.rs, httpu/builder.rs)
-- ------------------------------------------------------------------------------------------------

/-- common::httpu::Request: method, optional resource, header map.
RequestBuilder::new starts with no resource and an empty map, and
add_header is a map insert. -/
structure Request where
  message : Str
  resource : Option Str
  headers : Headers
deriving DecidableEq, Repr

-- ------------------------------------------------------------------------------------------------
-- Search engine data model (discovery/search.rs, discovery/mod.rs)
-- ------------------------------------------------------------------------------------------------

/-- common::interface::IP. -/
inductive IP
  | V4
  | V6
deriving DecidableEq, Repr

/-- discovery::ControlPoint. -/
structure ControlPoint where
  friendly_name : Str
  uuid : Option Str
  port : Option Nat
deriving DecidableEq, Repr

/-- discovery::search::Options (max_wait_time is a u8 in the source). -/
structure Options where
  spec_version : SpecVersion
  search_target : SearchTarget
  network_interface : Option Str
  network_version : Option IP
  packet_ttl : Nat
  max_wait_time : Nat
  product_and_version : Option ProductVersion
  control_point : Option ControlPoint
deriving DecidableEq, Repr

/-- Options::default_for. -/
def Options.default_for (spec_version : SpecVersion) : Options where
  spec_version := spec_version
  network_interface := none
  network_version := none
  search_target := .RootDevice
  packet_ttl := if spec_version = .V10 then 4 else 2
  max_wait_time := 2
  product_and_version := none
  control_point := none

/-- The UA_VERSION regex `^[\d\.]+$`. -/
def uaVersionOk (v : Str) : Bool := !v.isEmpty && v.all isDigitOrDot

/-- Options::validate. -/
def Options.validate (o : Options) : Except Err Unit :=
  if o.max_wait_time < 1 ∨ 120 < o.max_wait_time then
    .error (.MessageFormat (.InvalidValue .Field (lit "max_wait_time") (natToStr o.max_wait_time)))
  else
    let v11_check : Except Err Unit :=
      if o.spec_version.atLeast .V11 then
        match o.product_and_version with
        | some user_agent =>
          if user_agent.name.contains '/' || !(uaVersionOk user_agent.version) then
            .error (.MessageFormat
              (.InvalidValue .Field (lit "UserAgent") (productVersionToStr user_agent)))
          else .ok ()
        | none => .ok ()
      else .ok ()
    match v11_check with
    | .error e => .error e
    | .ok () =>
      if o.spec_version.atLeast .V20 then
        match o.control_point with
        | none => .error (.MessageFormat (.MissingRequiredValue .Field (lit "ControlPoint")))
        | some control_point =>
          if control_point.friendly_name.isEmpty then
            .error (.MessageFormat
              (.InvalidValue .Field (lit "ControlPoint") control_point.friendly_name))
          else .ok ()
      else .ok ()

/-- discovery::search::Response (the typed SearchResponse; max_age in
seconds, URI/URL values kept as strings since the uri module is not in the
sources). -/
structure SearchResponse where
  max_age : Nat
  date : Str
  versions : ProductVersions
  search_target : SearchTarget
  service_name : Str
  location : Str
  boot_id : Nat
  config_id : Option Nat
  search_port : Option Nat
  other_headers : Headers
deriving DecidableEq, Repr

/-- discovery::search::CachedResponse (expiration as an abstract instant). -/
structure CachedResponse where
  response : SearchResponse
  expiration : Nat
deriving DecidableEq, Repr

/-- discovery::search::ResponseCache. -/
structure ResponseCache where
  options : Options
  minimum_refresh : Nat
  last_updated : Nat
  responses : List CachedResponse
deriving DecidableEq, Repr

/-- REQUIRED_HEADERS_V10. -/
def REQUIRED_HEADERS_V10 : List Str :=
  [lit "CACHE-CONTROL", lit "DATE", lit "EXT", lit "LOCATION",
   lit "SERVER", lit "ST", lit "USN"]

/-- Lines 524-541 of discovery/search.rs: the BOOTID / CONFIGID /
SEARCHPORT section of the conversion, keyed on the UPnP token parsed out
of the SERVER header.  BOOTID defaults to "0" when absent and is a hard
error when unparsable; the optional values fall back to None via
`.parse().ok()`. -/
def bootSection (versions : ProductVersions) (h : Headers) :
    Except MsgErr (Nat × Option Nat × Option Nat) :=
  if versions.upnp.version == specVersionToStr .V20 then
    match check_parsed_value_u64 ((findH (lit "BOOTID.UPNP.ORG") h).getD (lit "0")) with
    | .error e => .error e
    | .ok boot_id =>
      let config_id := (findH (lit "CONFIGID.UPNP.ORG") h).bind (rustParseNat 64)
      let search_port := (findH (lit "SEARCHPORT.UPNP.ORG") h).bind (rustParseNat 16)
      .ok (boot_id, config_id, search_port)
  else .ok (0, none, none)

/-- TryFrom<MulticastResponse> for discovery::search::Response, over the
header map of the raw response.  `uriOk` models `URI::from_str` (the
common::uri module is not among the sources; per the spec it parses the
USN/LOCATION strings and its success is all the conversion observes).
Every `unwrap` of the source is `unwrapOpt`, i.e. a potential panic. -/
def tryFromResponse (uriOk : Str → Bool) (h : Headers) : Conv SearchResponse :=
  match check_required h REQUIRED_HEADERS_V10 with
  | .error e => .error (.err (.MessageFormat e))
  | .ok () =>
  match findH (lit "EXT") h with
  | none => .error .panic
  | some ext_value =>
  match check_empty ext_value with
  | .error e => .error (.err (.MessageFormat e))
  | .ok () =>
  match findH (lit "SERVER") h with
  | none => .error .panic
  | some server =>
  match uaAllCaptures server with
  | none => .error (.err (.MessageFormat (.InvalidValue .Field (lit "SERVER") server)))
  | some versions =>
  match findH (lit "CACHE-CONTROL") h with
  | none => .error .panic
  | some cache_control =>
  match check_regex_maxage cache_control with
  | .error e => .error (.err (.MessageFormat e))
  | .ok max_age_digits =>
  match check_parsed_value_u64 max_age_digits with
  | .error e => .error (.err (.MessageFormat e))
  | .ok max_age =>
  let date := check_not_empty (findH (lit "DATE") h) (lit "Thu, 01 Jan 1970 00:00:00 GMT")
  let location := check_not_empty (findH (lit "LOCATION") h) (lit "http://www.example.org")
  let service_name := check_not_empty (findH (lit "USN") h) (lit "undefined")
  let search_target := check_not_empty (findH (lit "ST") h) (lit "undefined")
  match bootSection versions h with
  | .error e => .error (.err (.MessageFormat e))
  | .ok (boot_id, config_id, search_port) =>
  let remaining_headers := h.filter (fun p => !(REQUIRED_HEADERS_V10.contains p.1))
  if uriOk location then
    match stFromStr search_target with
    | .error _ =>
      .error (.err (.MessageFormat (.InvalidValue .Field (lit "SearchTarget") search_target)))
    | .ok st =>
      if uriOk service_name then
        .ok { max_age := max_age, date := date, versions := versions, search_target := st,
              service_name := service_name, location := location, boot_id := boot_id,
              config_id := config_id, search_port := search_port,
              other_headers := remaining_headers }
      else .error (.err (.MessageFormat (.InvalidValue .Field (lit "URI") service_name)))
  else .error (.err (.MessageFormat (.InvalidValue .Header (lit "LOCATION") location)))

/-- The conversion loop `for raw_response in raw_responses { ...try_into()? }`. -/
def convertAll (uriOk : Str → Bool) : List RawResponse → Conv (List SearchResponse)
  | [] => .ok []
  | raw :: rest =>
    match tryFromResponse uriOk raw.headers with
    | .error e => .error e
    | .ok r =>
      match convertAll uriOk rest with
      | .error e => .error e
      | .ok rs => .ok (r :: rs)

-- ------------------------------------------------------------------------------------------------
-- Search engine operations (discovery/search.rs)
-- ------------------------------------------------------------------------------------------------

/-- search(options): validates, then the source hands back the
unsupported_operation("search") stub without any I/O. -/
def search (options : Options) : Except Err ResponseCache :=
  match options.validate with
  | .error e => .error e
  | .ok () => .error (.UnsupportedOperation (lit "search"))

/-- The M-SEARCH request built by search_once before it multicasts:
validation, the four 1.0 headers, USER-AGENT from 1.1, and the control
point headers from 2.0.  `ua` is the user_agent_string value (an injected
platform probe in the source). -/
def searchOnceRequest (ua : Str) (options : Options) : Except Err Request :=
  match options.validate with
  | .error e => .error e
  | .ok () =>
    let headers :=
      insertH (lit "ST") (stRender options.search_target)
        (insertH (lit "MX") (natToStr options.max_wait_time)
          (insertH (lit "MAN") (lit "\"ssdp:discover\"")
            (insertH (lit "HOST") (lit "239.255.255.250:1900") [])))
    let headers :=
      if options.spec_version.atLeast .V11 then
        insertH (lit "USER-AGENT") ua headers
      else headers
    if options.spec_version.atLeast .V20 then
      match options.control_point with
      | some cp =>
        let headers := insertH (lit "CPFN.UPNP.ORG") cp.friendly_name headers
        let headers := match cp.uuid with
          | some uuid => insertH (lit "CPUUID.UPNP.ORG") uuid headers
          | none => headers
        let headers := match cp.port with
          | some port => insertH (lit "TCPPORT.UPNP.ORG") (natToStr port) headers
          | none => headers
        .ok ⟨lit "M-SEARCH", none, headers⟩
      | none => .error (.MessageFormat (.MissingRequiredValue .Field (lit "control_point")))
    else .ok ⟨lit "M-SEARCH", none, headers⟩

/-- search_once: build the request, multicast it to 239.255.255.250:1900
(`net` stands for the whole `multicast` call), convert every raw response.
The second component is the list of requests handed to the transport. -/
def search_once (ua : Str) (uriOk : Str → Bool)
    (net : Request → Except Err (List RawResponse)) (options : Options) :
    Conv (List SearchResponse) × List Request :=
  match searchOnceRequest ua options with
  | .error e => (.error (.err e), [])
  | .ok request =>
    match net request with
    | .error e => (.error (.err e), [request])
    | .ok raw_responses => (convertAll uriOk raw_responses, [request])

/-- search_once_to_device: validate, then for spec >= 1.1 build the
HOST / MAN / ST / USER-AGENT request and unicast it to the device address;
for 1.0 fail with UnsupportedVersion before any send.  The second
component is the list of requests handed to the transport. -/
def search_once_to_device (ua : Str) (uriOk : Str → Bool)
    (net : Request → Except Err (List RawResponse)) (options : Options) :
    Conv (List SearchResponse) × List Request :=
  match options.validate with
  | .error e => (.error (.err e), [])
  | .ok () =>
    if options.spec_version.atLeast .V11 then
      let request : Request :=
        ⟨lit "M-SEARCH", none,
          insertH (lit "USER-AGENT") ua
            (insertH (lit "ST") (stRender options.search_target)
              (insertH (lit "MAN") (lit "\"ssdp:discover\"")
                (insertH (lit "HOST") (lit "239.255.255.250:1900") [])))⟩
      match net request with
      | .error e => (.error (.err e), [request])
      | .ok raw_responses => (convertAll uriOk raw_responses, [request])
    else (.error (.err (.UnsupportedVersion options.spec_version)), [])

-- ------------------------------------------------------------------------------------------------
-- Notify engine (ssdp/notify.rs)
-- ------------------------------------------------------------------------------------------------

/-- ssdp::notify::Device (boot_id is a u32 in the source; URI/URL fields
kept as strings). -/
structure NotifyDevice where
  notification_type : SearchTarget
  service_name : Str
  location : Str
  boot_id : Nat
  config_id : Nat
  search_port : Option Nat
  secure_location : Option Str
deriving DecidableEq, Repr

/-- ssdp::notify::Options. -/
structure NotifyOptions where
  spec_version : SpecVersion
  network_interface : Option Str
  max_age : Nat
  packet_ttl : Nat
  product_and_version : Option ProductVersion
deriving DecidableEq, Repr

/-- The NOTIFY ssdp:alive request device_available builds: the seven 1.0
headers, BOOTID / CONFIGID / optional SEARCHPORT from 1.1, the optional
SECURELOCATION from 2.0.  `ua` is the user_agent::make value (platform
probe, injected). -/
def deviceAvailableRequest (ua : Str) (device : NotifyDevice) (options : NotifyOptions) :
    Request :=
  let headers :=
    insertH (lit "USN") device.service_name
      (insertH (lit "SERVER") ua
        (insertH (lit "NTS") (lit "ssdp:alive")
          (insertH (lit "NT") (stRender device.notification_type)
            (insertH (lit "LOCATION") device.location
              (insertH (lit "CACHE-CONTROL") (lit "max-age=" ++ natToStr options.max_age)
                (insertH (lit "HOST") (lit "239.255.255.250:1900") []))))))
  let headers :=
    if options.spec_version.atLeast .V11 then
      let headers :=
        insertH (lit "CONFIGID.UPNP.ORG") (natToStr device.config_id)
          (insertH (lit "BOOTID.UPNP.ORG") (natToStr device.boot_id) headers)
      match device.search_port with
      | some search_port => insertH (lit "SEARCHPORT.UPNP.ORG") (natToStr search_port) headers
      | none => headers
    else headers
  let headers :=
    if options.spec_version.atLeast .V20 then
      match device.secure_location with
      | some secure_location => insertH (lit "SECURELOCATION.UPNP.ORG") secure_location headers
      | none => headers
    else headers
  ⟨lit "NOTIFY", none, headers⟩

/-- device_available: build the request, multicast it once (`sendResult`
is the outcome of that send), and only on success store the incremented
boot counter back into the device (u32 arithmetic, hence mod 2^32).  The
device is returned alongside the result, unchanged on error. -/
def device_available (ua : Str) (sendResult : Except Err Unit)
    (device : NotifyDevice) (options : NotifyOptions) :
    Except Err Unit × NotifyDevice :=
  let next_boot_id := (device.boot_id + 1) % 2 ^ 32
  match sendResult with
  | .error e => (.error e, device)
  | .ok () => (.ok (), { device with boot_id := next_boot_id })

/-- N successive device_available calls whose sends all succeed,
collecting the requests built (hence the datagrams sent) in order. -/
def availRun (ua : Str) (options : NotifyOptions) :
    Nat → NotifyDevice → List Request × NotifyDevice
  | 0, device => ([], device)
  | n + 1, device =>
    let device' := (device_available ua (.ok ()) device options).2
    (deviceAvailableRequest ua device options :: (availRun ua options n device').1,
     (availRun ua options n device').2)

-- ------------------------------------------------------------------------------------------------
-- Concrete fixtures used by the theorems below
-- ------------------------------------------------------------------------------------------------

/-- A well-formed search-response datagram. -/
def validDg : Str := lit "HTTP/1.1 200 OK\r\nST: upnp:rootdevice\r\n\r\n"

/-- The parse of validDg. -/
def validResp : RawResponse :=
  ⟨⟨lit "HTTP", lit "1.1", 200, lit "OK"⟩, [(lit "ST", lit "upnp:rootdevice")], none⟩

/-- A malformed datagram (no valid status line). -/
def badDg : Str := lit "GARBAGE\r\n\r\n"

/-- A header map with six of the seven required headers: only LOCATION is
absent. -/
def headersMissingLocation : Headers :=
  [(lit "CACHE-CONTROL", lit "max-age=1800"),
   (lit "DATE", lit "Thu, 01 Jan 2020 00:00:00 GMT"),
   (lit "EXT", lit ""),
   (lit "SERVER", lit "unix/5.1 UPnP/1.0 MyProduct/1.0"),
   (lit "ST", lit "upnp:rootdevice"),
   (lit "USN", lit "uuid:1234::upnp:rootdevice")]

/-- The header map of the exact V10 default M-SEARCH. -/
def msearchV10Headers : Headers :=
  [(lit "HOST", lit "239.255.255.250:1900"),
   (lit "MAN", lit "\"ssdp:discover\""),
   (lit "MX", lit "2"),
   (lit "ST", lit "upnp:rootdevice")]

/-- Notify options for spec version 1.1. -/
def nOptsV11 : NotifyOptions := ⟨.V11, none, 1800, 2, none⟩

/-- A fresh notify device with boot_id 0. -/
def dev0 : NotifyDevice := ⟨.RootDevice, lit "usn:1", lit "http://h/d.xml", 0, 1, none, none⟩

/-- A notify device whose u32 boot counter is at its maximum. -/
def devWrap : NotifyDevice :=
  ⟨.RootDevice, lit "usn:1", lit "http://h/d.xml", 2 ^ 32 - 1, 1, none, none⟩

/-- SERVER versions whose UPnP token is 2.0. -/
def versions20 : ProductVersions :=
  ⟨⟨lit "MyProduct", lit "1.0"⟩, ⟨lit "UPnP", lit "2.0"⟩, ⟨lit "unix", lit "5.1"⟩⟩

/-- The UDA 2.0 header triple of scenario E2. -/
def headersE2 : Headers :=
  [(lit "BOOTID.UPNP.ORG", lit "42"),
   (lit "CONFIGID.UPNP.ORG", lit "7"),
   (lit "SEARCHPORT.UPNP.ORG", lit "49200")]

/-- Search options with an out-of-range max_wait_time. -/
def optsBadWait : Options := { Options.default_for .V10 with max_wait_time := 121 }

-- ------------------------------------------------------------------------------------------------
-- Claim theorems
-- ------------------------------------------------------------------------------------------------

/-- C2 (code at the failing input): with every required header except
LOCATION present, check_required succeeds (its take_while stops at the
present CACHE-CONTROL), LOCATION really is absent, and the whole
conversion then succeeds instead of failing with a missing-required-value
error naming LOCATION. -/
theorem check_required_misses_absent_location :
    check_required headersMissingLocation REQUIRED_HEADERS_V10 = .ok () ∧
    findH (lit "LOCATION") headersMissingLocation = none ∧
    convIsOk (tryFromResponse (fun _ => true) headersMissingLocation) = true := by
  decide

/-- C3 counterexample: the default 1.0 options validate, yet search
returns the UnsupportedOperation("search") error, not a ResponseCache. -/
theorem search_valid_options_cex :
    (Options.default_for .V10).validate = .ok () ∧
    search (Options.default_for .V10) = .error (.UnsupportedOperation (lit "search")) := by
  decide

/-- C3 amended: for every options value that passes validation, search is
the unsupported-operation stub; it performs no search and builds no
cache. -/
theorem search_stub_unsupported (o : Options) (hv : o.validate = .ok ()) :
    search o = .error (.UnsupportedOperation (lit "search")) := by
  unfold search
  rw [hv]

/-- C3 witness. -/
theorem search_stub_unsupported_witness :
    search (Options.default_for .V10) = .error (.UnsupportedOperation (lit "search")) :=
  search_stub_unsupported (Options.default_for .V10) (by decide)

/-- C4 (code at the failing input): rendering the spec's own
domain-qualified example and parsing it back does not return the value;
the parser strips the urn prefix and then applies the DOMAIN_URN regex,
which demands a second urn prefix, so the parse fails with
InvalidValueForType("URN", ...). -/
theorem domain_service_roundtrip_fails :
    stFromStr (stRender (.DomainServiceType (lit "axis-com") (lit "BasicService:1")))
      = .error (.InvalidValueForType (lit "URN") (lit "urn:axis-com:service:BasicService:1")) := by
  decide

/-- C6: for the default 1.0 options, the M-SEARCH request search_once
builds has exactly the four headers HOST, MAN, MX and ST with the
prescribed values, and in particular neither USER-AGENT nor
CPFN.UPNP.ORG. -/
theorem search_once_v10_default_request (ua : Str) :
    searchOnceRequest ua (Options.default_for .V10)
        = .ok ⟨lit "M-SEARCH", none, msearchV10Headers⟩ ∧
    findH (lit "USER-AGENT") msearchV10Headers = none ∧
    findH (lit "CPFN.UPNP.ORG") msearchV10Headers = none :=
  ⟨rfl, by decide, by decide⟩

/-- C6 witness: the request at a concrete user-agent string. -/
theorem search_once_v10_default_request_witness :
    searchOnceRequest (lit "ua") (Options.default_for .V10)
        = .ok ⟨lit "M-SEARCH", none, msearchV10Headers⟩ ∧
    findH (lit "USER-AGENT") msearchV10Headers = none ∧
    findH (lit "CPFN.UPNP.ORG") msearchV10Headers = none :=
  search_once_v10_default_request (lit "ua")

/-- C10 (code at the failing input): a header map containing only
CACHE-CONTROL passes check_required (its take_while stops at the first
present name), after which the conversion unwraps the absent EXT header
and panics, so the conversion is not total. -/
theorem try_from_response_panics :
    tryFromResponse (fun _ => true) [(lit "CACHE-CONTROL", lit "max-age=1800")]
      = .error .panic := by
  decide

/-- Helper: while every datagram parses, the loop accumulates the parsed
responses in order and a WouldBlock terminates it with all of them. -/
theorem multicastUsingLoop_ok (ds : List Str) (rs : List RawResponse)
    (hp : List.Forall₂ (fun d r => httpuTryFrom d = .ok r) ds rs) :
    ∀ (acc : List RawResponse) (rest : List SocketEvent),
      multicastUsingLoop (ds.map SocketEvent.datagram ++ SocketEvent.wouldBlock :: rest) acc
        = some (.ok (acc ++ rs)) := by
  induction hp with
  | nil => intro acc rest; simp [multicastUsingLoop]
  | cons hd htl ih =>
    intro acc rest
    simp only [List.map_cons, List.cons_append, multicastUsingLoop, hd, List.append_eq]
    rw [ih]
    simp

/-- Helper: the first datagram that fails to parse makes the loop return
that error at once. -/
theorem multicastUsingLoop_err (ds : List Str) (rs : List RawResponse)
    (hp : List.Forall₂ (fun d r => httpuTryFrom d = .ok r) ds rs)
    (d : Str) (e : ConvErr) (he : httpuTryFrom d = .error e) :
    ∀ (acc : List RawResponse) (rest : List SocketEvent),
      multicastUsingLoop (ds.map SocketEvent.datagram ++ SocketEvent.datagram d :: rest) acc
        = some (.error e) := by
  induction hp with
  | nil => intro acc rest; simp [multicastUsingLoop, he]
  | cons hd htl ih =>
    intro acc rest
    simp only [List.map_cons, List.cons_append, multicastUsingLoop, hd, List.append_eq]
    rw [ih]

/-- C1 counterexample: for a socket yielding [valid, malformed, valid]
then WouldBlock, multicast_using returns the parse error of the malformed
datagram, not a list of 2 responses; the two flanking datagrams do parse
and the middle one alone fails. -/
theorem multicast_using_mixed_datagrams_cex :
    multicast_using true
        [.datagram validDg, .datagram badDg, .datagram validDg, .wouldBlock]
      = some (.error (.err (.MessageFormat .InvalidResponseStatus))) ∧
    httpuTryFrom validDg = .ok validResp ∧
    httpuTryFrom badDg = .error (.err (.MessageFormat .InvalidResponseStatus)) := by
  decide

/-- C1 amended: the receive loop of multicast_using is terminated by the
WouldBlock timeout and returns the parsed responses in arrival order only
when every received datagram parses; the first datagram that fails to
parse is neither logged-and-skipped nor isolated: the call immediately
returns its parse error and discards the earlier responses. -/
theorem multicast_using_parse_error_propagates :
    (∀ (ds : List Str) (rs : List RawResponse) (rest : List SocketEvent),
        List.Forall₂ (fun d r => httpuTryFrom d = .ok r) ds rs →
        multicast_using true (ds.map SocketEvent.datagram ++ SocketEvent.wouldBlock :: rest)
          = some (.ok rs)) ∧
    (∀ (ds : List Str) (rs : List RawResponse) (d : Str) (e : ConvErr)
        (rest : List SocketEvent),
        List.Forall₂ (fun d r => httpuTryFrom d = .ok r) ds rs →
        httpuTryFrom d = .error e →
        multicast_using true (ds.map SocketEvent.datagram ++ SocketEvent.datagram d :: rest)
          = some (.error e)) := by
  constructor
  · intro ds rs rest hp
    have := multicastUsingLoop_ok ds rs hp [] rest
    simpa [multicast_using] using this
  · intro ds rs d e rest hp he
    have := multicastUsingLoop_err ds rs hp d e he [] rest
    simpa [multicast_using] using this

/-- C1 amended witness. -/
theorem multicast_using_parse_error_propagates_witness :
    multicast_using true
        ([validDg].map SocketEvent.datagram ++ SocketEvent.wouldBlock :: [])
      = some (.ok [validResp]) ∧
    multicast_using true
        ([validDg].map SocketEvent.datagram ++ SocketEvent.datagram badDg :: [])
      = some (.error (.err (.MessageFormat .InvalidResponseStatus))) :=
  ⟨multicast_using_parse_error_propagates.1 [validDg] [validResp] []
      (List.Forall₂.cons (by decide) List.Forall₂.nil),
   multicast_using_parse_error_propagates.2 [validDg] [validResp] badDg
      (.err (.MessageFormat .InvalidResponseStatus)) []
      (List.Forall₂.cons (by decide) List.Forall₂.nil) (by decide)⟩

set_option maxHeartbeats 1600000 in
/-- Helper: for spec version 1.1 or later, the ssdp:alive request carries
the device's current (pre-increment) boot counter in BOOTID.UPNP.ORG. -/
theorem deviceAvailableRequest_bootid (ua : Str) (device : NotifyDevice)
    (options : NotifyOptions) (h11 : options.spec_version.atLeast .V11 = true) :
    findH (lit "BOOTID.UPNP.ORG") (deviceAvailableRequest ua device options).headers
      = some (natToStr device.boot_id) := by
  obtain ⟨sv, ni, ma, pt, pv⟩ := options
  obtain ⟨nt, sn, loc, bid, cid, sp, sl⟩ := device
  cases sv with
  | V10 => simp [SpecVersion.atLeast, SpecVersion.rank] at h11
  | V11 =>
    cases sp <;> cases sl <;>
      simp [deviceAvailableRequest, insertH, containsKey, findH, lit,
        SpecVersion.atLeast, SpecVersion.rank]
  | V20 =>
    cases sp <;> cases sl <;>
      simp [deviceAvailableRequest, insertH, containsKey, findH, lit,
        SpecVersion.atLeast, SpecVersion.rank]

/-- C5 counterexample: boot_id is a u32, so one successful
device_available on a device whose boot counter is 2^32 - 1 leaves 0, not
the initial value plus one. -/
theorem device_available_bootid_wrap_cex :
    (device_available (lit "ua") (.ok ()) devWrap nOptsV11).2.boot_id = 0 ∧
    devWrap.boot_id + 1 = 2 ^ 32 := by
  decide

/-- C5 amended: boot-counter arithmetic is modulo 2^32.  After N
successful device_available calls the device's boot_id is
(initial + N) mod 2^32; for spec 1.1+, the k-th request sent (0-based)
carries BOOTID.UPNP.ORG equal to (initial + k) mod 2^32; and a call whose
send fails returns the error with the device unchanged. -/
theorem device_available_bootid_mod :
    (∀ (ua : Str) (options : NotifyOptions) (n : Nat) (device : NotifyDevice),
        device.boot_id < 2 ^ 32 →
        (availRun ua options n device).2.boot_id = (device.boot_id + n) % 2 ^ 32) ∧
    (∀ (ua : Str) (options : NotifyOptions) (n k : Nat) (device : NotifyDevice),
        k < n → device.boot_id < 2 ^ 32 → options.spec_version.atLeast .V11 = true →
        ((availRun ua options n device).1.get? k).map
            (fun r => findH (lit "BOOTID.UPNP.ORG") r.headers)
          = some (some (natToStr ((device.boot_id + k) % 2 ^ 32)))) ∧
    (∀ (ua : Str) (e : Err) (device : NotifyDevice) (options : NotifyOptions),
        device_available ua (.error e) device options = (.error e, device)) := by
  refine ⟨?_, ?_, ?_⟩
  · intro ua options n
    induction n with
    | zero =>
      intro device hlt
      obtain ⟨nt, sn, loc, bid, cid, sp, sl⟩ := device
      have hlt' : bid < 2 ^ 32 := hlt
      show bid = (bid + 0) % 2 ^ 32
      omega
    | succ n ih =>
      intro device hlt
      obtain ⟨nt, sn, loc, bid, cid, sp, sl⟩ := device
      have hlt' : bid < 2 ^ 32 := hlt
      have hstep : ((bid + 1) % 2 ^ 32) < 2 ^ 32 := Nat.mod_lt _ (by norm_num)
      have hunf : (availRun ua options (n + 1) ⟨nt, sn, loc, bid, cid, sp, sl⟩).2
          = (availRun ua options n ⟨nt, sn, loc, (bid + 1) % 2 ^ 32, cid, sp, sl⟩).2 := rfl
      rw [hunf, ih ⟨nt, sn, loc, (bid + 1) % 2 ^ 32, cid, sp, sl⟩ hstep]
      show ((bid + 1) % 2 ^ 32 + n) % 2 ^ 32 = (bid + (n + 1)) % 2 ^ 32
      omega
  · intro ua options n
    induction n with
    | zero => intro k device hk; omega
    | succ n ih =>
      intro k device hk hlt h11
      obtain ⟨nt, sn, loc, bid, cid, sp, sl⟩ := device
      have hlt' : bid < 2 ^ 32 := hlt
      cases k with
      | zero =>
        have hunf : Option.map (fun r => findH (lit "BOOTID.UPNP.ORG") r.headers)
            ((availRun ua options (n + 1) ⟨nt, sn, loc, bid, cid, sp, sl⟩).1.get? 0)
            = some (findH (lit "BOOTID.UPNP.ORG")
                (deviceAvailableRequest ua ⟨nt, sn, loc, bid, cid, sp, sl⟩ options).headers) :=
          rfl
        rw [hunf, deviceAvailableRequest_bootid ua _ options h11]
        show some (some (natToStr bid)) = some (some (natToStr ((bid + 0) % 2 ^ 32)))
        have harith : (bid + 0) % 2 ^ 32 = bid := by omega
        rw [harith]
      | succ k =>
        have hstep : ((bid + 1) % 2 ^ 32) < 2 ^ 32 := Nat.mod_lt _ (by norm_num)
        have hk' : k < n := by omega
        have hunf : (availRun ua options (n + 1) ⟨nt, sn, loc, bid, cid, sp, sl⟩).1.get? (k + 1)
            = (availRun ua options n ⟨nt, sn, loc, (bid + 1) % 2 ^ 32, cid, sp, sl⟩).1.get? k :=
          rfl
        rw [hunf, ih k ⟨nt, sn, loc, (bid + 1) % 2 ^ 32, cid, sp, sl⟩ hk' hstep h11]
        show some (some (natToStr (((bid + 1) % 2 ^ 32 + k) % 2 ^ 32)))
            = some (some (natToStr ((bid + (k + 1)) % 2 ^ 32)))
        have harith : ((bid + 1) % 2 ^ 32 + k) % 2 ^ 32 = (bid + (k + 1)) % 2 ^ 32 := by omega
        rw [harith]
  · intro ua e device options
    rfl

/-- C5 amended witness. -/
theorem device_available_bootid_mod_witness :
    ((availRun (lit "ua") nOptsV11 2 dev0).2.boot_id = (dev0.boot_id + 2) % 2 ^ 32) ∧
    (((availRun (lit "ua") nOptsV11 2 dev0).1.get? 1).map
        (fun r => findH (lit "BOOTID.UPNP.ORG") r.headers)
      = some (some (natToStr ((dev0.boot_id + 1) % 2 ^ 32)))) ∧
    (device_available (lit "ua") (.error .NetworkTransport) dev0 nOptsV11
      = (.error .NetworkTransport, dev0)) :=
  ⟨device_available_bootid_mod.1 (lit "ua") nOptsV11 2 dev0 (by decide),
   device_available_bootid_mod.2.1 (lit "ua") nOptsV11 2 1 dev0 (by decide) (by decide) (by decide),
   device_available_bootid_mod.2.2 (lit "ua") .NetworkTransport dev0 nOptsV11⟩

/-- C7: for validating options at spec version 1.0, search_once_to_device
fails with UnsupportedVersion and hands nothing to the transport; for
spec 1.1 or later it sends exactly one request whose headers are exactly
HOST, MAN, ST and USER-AGENT, with no MX header. -/
theorem search_once_to_device_gating :
    (∀ (ua : Str) (uriOk : Str → Bool) (net : Request → Except Err (List RawResponse))
        (o : Options), o.validate = .ok () → o.spec_version = .V10 →
        search_once_to_device ua uriOk net o
          = (.error (.err (.UnsupportedVersion .V10)), [])) ∧
    (∀ (ua : Str) (uriOk : Str → Bool) (net : Request → Except Err (List RawResponse))
        (o : Options), o.validate = .ok () → o.spec_version.atLeast .V11 = true →
        (search_once_to_device ua uriOk net o).2
          = [⟨lit "M-SEARCH", none,
              [(lit "HOST", lit "239.255.255.250:1900"),
               (lit "MAN", lit "\"ssdp:discover\""),
               (lit "ST", stRender o.search_target),
               (lit "USER-AGENT", ua)]⟩]) := by
  constructor
  · intro ua uriOk net o hval h10
    unfold search_once_to_device
    rw [hval, h10]
    simp [SpecVersion.atLeast, SpecVersion.rank]
  · intro ua uriOk net o hval h11
    unfold search_once_to_device
    rw [hval]
    simp only [h11]
    split
    next =>
      split <;> simp [insertH, containsKey, lit]
    next h => exact absurd trivial h

/-- C7 witness. -/
theorem search_once_to_device_gating_witness :
    (search_once_to_device (lit "ua") (fun _ => true) (fun _ => .ok [])
        (Options.default_for .V10)
      = (.error (.err (.UnsupportedVersion .V10)), [])) ∧
    ((search_once_to_device (lit "ua") (fun _ => true) (fun _ => .ok [])
        (Options.default_for .V11)).2
      = [⟨lit "M-SEARCH", none,
          [(lit "HOST", lit "239.255.255.250:1900"),
           (lit "MAN", lit "\"ssdp:discover\""),
           (lit "ST", stRender (Options.default_for .V11).search_target),
           (lit "USER-AGENT", lit "ua")]⟩]) :=
  ⟨search_once_to_device_gating.1 (lit "ua") (fun _ => true) (fun _ => .ok [])
      (Options.default_for .V10) (by decide) rfl,
   search_once_to_device_gating.2 (lit "ua") (fun _ => true) (fun _ => .ok [])
      (Options.default_for .V11) (by decide) (by decide)⟩

/-- C8 counterexample: the default 2.0 options have max_wait_time = 2,
inside the 1..=120 range, yet validate fails (with the missing
control-point error), so validation success is not equivalent to the
max-wait bound alone. -/
theorem validate_not_iff_range_cex :
    (Options.default_for .V20).max_wait_time = 2 ∧
    Options.validate (Options.default_for .V20)
      = .error (.MessageFormat (.MissingRequiredValue .Field (lit "ControlPoint"))) := by
  decide

/-- C8 amended: validation success always implies 1 <= max_wait_time <=
120, and an out-of-range max_wait_time always fails with InvalidFieldValue
naming max_wait_time; the equivalence itself holds for options at spec
version 1.0 (later versions add product / control-point checks). -/
theorem validate_max_wait_bounds :
    (∀ o : Options, o.validate = .ok () → 1 ≤ o.max_wait_time ∧ o.max_wait_time ≤ 120) ∧
    (∀ o : Options, o.max_wait_time < 1 ∨ 120 < o.max_wait_time →
        o.validate = .error
          (.MessageFormat (.InvalidValue .Field (lit "max_wait_time")
            (natToStr o.max_wait_time)))) ∧
    (∀ o : Options, o.spec_version = .V10 →
        (o.validate = .ok () ↔ 1 ≤ o.max_wait_time ∧ o.max_wait_time ≤ 120)) := by
  refine ⟨?_, ?_, ?_⟩
  · intro o hval
    by_cases hr : o.max_wait_time < 1 ∨ 120 < o.max_wait_time
    · unfold Options.validate at hval
      rw [if_pos hr] at hval
      cases hval
    · omega
  · intro o hr
    unfold Options.validate
    rw [if_pos hr]
  · intro o h10
    constructor
    · intro hval
      by_cases hr : o.max_wait_time < 1 ∨ 120 < o.max_wait_time
      · unfold Options.validate at hval
        rw [if_pos hr] at hval
        cases hval
      · omega
    · intro hr
      unfold Options.validate
      rw [if_neg (by omega), h10]
      simp [SpecVersion.atLeast, SpecVersion.rank]

/-- C8 amended witness. -/
theorem validate_max_wait_bounds_witness :
    (1 ≤ (Options.default_for .V10).max_wait_time ∧
      (Options.default_for .V10).max_wait_time ≤ 120) ∧
    (optsBadWait.validate = .error
        (.MessageFormat (.InvalidValue .Field (lit "max_wait_time")
          (natToStr optsBadWait.max_wait_time)))) ∧
    ((Options.default_for .V10).validate = .ok () ↔
      1 ≤ (Options.default_for .V10).max_wait_time ∧
        (Options.default_for .V10).max_wait_time ≤ 120) :=
  ⟨validate_max_wait_bounds.1 (Options.default_for .V10) (by decide),
   validate_max_wait_bounds.2.1 optsBadWait (by decide),
   validate_max_wait_bounds.2.2 (Options.default_for .V10) rfl⟩

/-- C9: the boot section of the conversion.  When the parsed SERVER UPnP
token is not 2.0, boot_id / config_id / search_port are 0 / None / None
regardless of the headers.  When it is 2.0: an absent BOOTID defaults to
0, a parsable one is its u64 value, an unparsable one is a hard error, and
CONFIGID / SEARCHPORT are the optional parses with unparsable values
falling back to None.  Finally, whenever the whole conversion succeeds its
three fields are exactly the boot section's output for the versions parsed
out of the SERVER header. -/
theorem boot_config_searchport_rules :
    (∀ (v : ProductVersions) (h : Headers), ¬ (v.upnp.version = lit "2.0") →
        bootSection v h = .ok (0, none, none)) ∧
    (∀ (v : ProductVersions) (h : Headers), v.upnp.version = lit "2.0" →
        findH (lit "BOOTID.UPNP.ORG") h = none →
        bootSection v h = .ok (0, (findH (lit "CONFIGID.UPNP.ORG") h).bind (rustParseNat 64),
          (findH (lit "SEARCHPORT.UPNP.ORG") h).bind (rustParseNat 16))) ∧
    (∀ (v : ProductVersions) (h : Headers) (s : Str) (n : Nat),
        v.upnp.version = lit "2.0" → findH (lit "BOOTID.UPNP.ORG") h = some s →
        rustParseNat 64 s = some n →
        bootSection v h = .ok (n, (findH (lit "CONFIGID.UPNP.ORG") h).bind (rustParseNat 64),
          (findH (lit "SEARCHPORT.UPNP.ORG") h).bind (rustParseNat 16))) ∧
    (∀ (v : ProductVersions) (h : Headers) (s : Str),
        v.upnp.version = lit "2.0" → findH (lit "BOOTID.UPNP.ORG") h = some s →
        rustParseNat 64 s = none →
        bootSection v h = .error .InvalidFieldValue) ∧
    (∀ (uriOk : Str → Bool) (h : Headers) (r : SearchResponse),
        tryFromResponse uriOk h = .ok r →
        ∃ server versions, findH (lit "SERVER") h = some server ∧
          uaAllCaptures server = some versions ∧
          bootSection versions h = .ok (r.boot_id, r.config_id, r.search_port)) := by
  refine ⟨?_, ?_, ?_, ?_, ?_⟩
  · intro v h hne
    unfold bootSection
    rw [if_neg (by simp only [specVersionToStr, beq_iff_eq]; exact hne)]
  · intro v h heq hb
    unfold bootSection
    rw [if_pos (by simp only [specVersionToStr, beq_iff_eq]; exact heq), hb]
    rfl
  · intro v h s n heq hb hp
    unfold bootSection check_parsed_value_u64
    rw [if_pos (by simp only [specVersionToStr, beq_iff_eq]; exact heq), hb]
    simp only [Option.getD_some]
    rw [hp]
  · intro v h s heq hb hp
    unfold bootSection check_parsed_value_u64
    rw [if_pos (by simp only [specVersionToStr, beq_iff_eq]; exact heq), hb]
    simp only [Option.getD_some]
    rw [hp]
  · intro uriOk h r htf
    unfold tryFromResponse at htf
    cases h1 : check_required h REQUIRED_HEADERS_V10 with
    | error e => simp only [h1] at htf; exact Except.noConfusion htf
    | ok u =>
    cases u
    simp only [h1] at htf
    cases h2 : findH (lit "EXT") h with
    | none => simp only [h2] at htf; exact Except.noConfusion htf
    | some ext_value =>
    simp only [h2] at htf
    cases h3 : check_empty ext_value with
    | error e => simp only [h3] at htf; exact Except.noConfusion htf
    | ok u =>
    cases u
    simp only [h3] at htf
    cases h4 : findH (lit "SERVER") h with
    | none => simp only [h4] at htf; exact Except.noConfusion htf
    | some server =>
    simp only [h4] at htf
    cases h5 : uaAllCaptures server with
    | none => simp only [h5] at htf; exact Except.noConfusion htf
    | some versions =>
    simp only [h5] at htf
    cases h6 : findH (lit "CACHE-CONTROL") h with
    | none => simp only [h6] at htf; exact Except.noConfusion htf
    | some cache_control =>
    simp only [h6] at htf
    cases h7 : check_regex_maxage cache_control with
    | error e => simp only [h7] at htf; exact Except.noConfusion htf
    | ok max_age_digits =>
    simp only [h7] at htf
    cases h8 : check_parsed_value_u64 max_age_digits with
    | error e => simp only [h8] at htf; exact Except.noConfusion htf
    | ok max_age =>
    simp only [h8] at htf
    cases h9 : bootSection versions h with
    | error e => simp only [h9] at htf; exact Except.noConfusion htf
    | ok triple =>
    obtain ⟨boot_id, config_id, search_port⟩ := triple
    simp only [h9] at htf
    cases h10 : uriOk (check_not_empty (findH (lit "LOCATION") h) (lit "http://www.example.org")) with
    | false => simp [h10] at htf
    | true =>
    simp only [h10, if_true] at htf
    cases h11 : stFromStr (check_not_empty (findH (lit "ST") h) (lit "undefined")) with
    | error e => simp only [h11] at htf; exact Except.noConfusion htf
    | ok st =>
    simp only [h11] at htf
    cases h12 : uriOk (check_not_empty (findH (lit "USN") h) (lit "undefined")) with
    | false => simp [h12] at htf
    | true =>
    simp only [h12, if_true] at htf
    cases htf
    exact ⟨server, versions, rfl, h5, h9⟩

/-- C9 witness: scenario E2 with SERVER UPnP token 2.0 and
BOOTID 42 / CONFIGID 7 / SEARCHPORT 49200. -/
theorem boot_config_searchport_rules_witness :
    bootSection versions20 headersE2
      = .ok (42, (findH (lit "CONFIGID.UPNP.ORG") headersE2).bind (rustParseNat 64),
          (findH (lit "SEARCHPORT.UPNP.ORG") headersE2).bind (rustParseNat 16)) :=
  boot_config_searchport_rules.2.2.1 versions20 headersE2 (lit "42") 42
    (by decide) (by decide) (by decide)

end Upnp
